import Mathlib

/-!
Verification development for the streamgenie show-status engine.

The definitions below are a shallow embedding of `src/production_intel.py`
and `src/show_status.py`:

* dates are modelled by proleptic-Gregorian day ordinals (as Python's
  `date.toordinal`), and `date.today()` becomes an explicit `today : ℤ`
  parameter threaded through the functions that consume it;
* `datetime.strptime(s, "%Y-%m-%d")` becomes the executable `parseYMD`;
* float division `delta.days / 365.25` becomes exact division in ℚ
  (attainable values are integers divided by 365.25, which stay far
  enough from the branch boundaries 1, 3, 5, 10 that float rounding
  cannot flip any comparison, so the ℚ model is faithful);
* the Supabase client becomes an explicit record of table rows plus
  failure oracles for the calls whose `.execute()` may raise, and calls
  to `notifications.create_notification` are recorded as emitted events;
* Python `try/except` blocks that convert any exception into a sentinel
  return value become total functions returning that sentinel.
-/

/-- Calendar date as parsed from a `"%Y-%m-%d"` string. -/
structure Ymd where
  y : Nat
  m : Nat
  d : Nat
deriving DecidableEq, Repr

/-- Gregorian leap-year test (as Python's `calendar.isleap`, used by
`datetime.date` validation). -/
def isLeap (y : Nat) : Bool :=
  y % 4 == 0 && (y % 100 != 0 || y % 400 == 0)

/-- Number of days in a month, as enforced by `datetime.date`. -/
def daysInMonth (y m : Nat) : Nat :=
  if m == 2 then (if isLeap y then 29 else 28)
  else if m == 4 || m == 6 || m == 9 || m == 11 then 30
  else 31

/-- Split a character list on `'-'`, as `str.split("-")` does for a
single-character separator (so `""` splits to `[""]`). -/
def splitDash : List Char → List (List Char)
  | [] => [[]]
  | c :: t =>
    if c = '-' then [] :: splitDash t
    else
      match splitDash t with
      | h :: r => (c :: h) :: r
      | [] => [[c]]

/-- Decimal value of an all-digit character list. -/
def digitsValAux : List Char → Nat → Option Nat
  | [], acc => some acc
  | c :: t, acc =>
    if c.isDigit then digitsValAux t (10 * acc + (c.toNat - Char.toNat '0'))
    else none

/-- Decimal value of a character list; `none` when empty or when any
character is not a digit. -/
def digitsVal (cs : List Char) : Option Nat :=
  match cs with
  | [] => none
  | _ => digitsValAux cs 0

/-- Model of `datetime.strptime(s, "%Y-%m-%d").date()` as a total function:
`none` when the parse or the date validation fails.  CPython's `%Y`
matches exactly four digits, `%m`/`%d` one or two, and the constructed
`date` then validates month and day-of-month ranges. -/
def parseYMD (s : String) : Option Ymd :=
  match splitDash s.data with
  | [ys, ms, ds] =>
    match digitsVal ys, digitsVal ms, digitsVal ds with
    | some y, some m, some d =>
      if ys.length == 4 && 1 ≤ ms.length && ms.length ≤ 2
          && 1 ≤ ds.length && ds.length ≤ 2
          && 1 ≤ y && 1 ≤ m && m ≤ 12 && 1 ≤ d && d ≤ daysInMonth y m
      then some ⟨y, m, d⟩ else none
    | _, _, _ => none
  | _ => none

/-- Days-before-year part of Python's `date.toordinal`. -/
def daysBeforeYear (y : Nat) : Nat :=
  let p := y - 1
  p * 365 + p / 4 + p / 400 - p / 100

/-- Days-before-month part of Python's `date.toordinal`. -/
def daysBeforeMonth (y m : Nat) : Nat :=
  (List.range (m - 1)).foldl (fun acc i => acc + daysInMonth y (i + 1)) 0

/-- Python's `date.toordinal`: day number in the proleptic Gregorian
calendar with `0001-01-01` as day 1. -/
def toOrdinal (x : Ymd) : Nat :=
  daysBeforeYear x.y + daysBeforeMonth x.y x.m + x.d

/-- Model of `production_intel._years_since`: years elapsed between `date_str` and
today, computed as `(today - date).days / 365.25`; `0.0` when the string
does not parse (the `except` branch). -/
def years_since (today : ℤ) (date_str : String) : ℚ :=
  match parseYMD date_str with
  | some x => ((today - (toOrdinal x : ℤ) : ℤ) : ℚ) / (365.25 : ℚ)
  | none => 0

/-- English month name, as `strftime("%B")` in the C locale. -/
def monthName (m : Nat) : String :=
  match m with
  | 1 => "January" | 2 => "February" | 3 => "March" | 4 => "April"
  | 5 => "May" | 6 => "June" | 7 => "July" | 8 => "August"
  | 9 => "September" | 10 => "October" | 11 => "November" | 12 => "December"
  | _ => ""

/-- Zero-padded two-digit rendering, as `strftime("%d")`. -/
def pad2 (n : Nat) : String :=
  if n < 10 then "0" ++ toString n else toString n

/-- Model of `production_intel._format_date`: render a parseable `"%Y-%m-%d"`
string as `strftime("%B %d, %Y")`; return the input unchanged when the
parse fails (the `except` branch). -/
def format_date (date_str : String) : String :=
  match parseYMD date_str with
  | some x => monthName x.m ++ " " ++ pad2 x.d ++ ", " ++ toString x.y
  | none => date_str

/-- Rendering of `f"{q:.0f}"` for the values this program feeds it.
Exact `.5` ties are unattainable here (they would force
`4 * days = 1461 * odd`), and attainable values keep a distance of at
least `1 / 5844` from every tie, so round-half-up on ℚ agrees with
Python's round-half-even on float at every reachable input. -/
def fmt_years (q : ℚ) : String :=
  toString (round q)

/-- One episode object from TMDB (`next_episode_to_air` /
`last_episode_to_air`); every field may be JSON `null`. -/
structure Episode where
  air_date : Option String
  season_number : Option Int
  episode_number : Option Int
deriving DecidableEq, Repr

/-- Python str() of an optional number inside an f-string: `None` prints
as `"None"`. -/
def pyOptIntStr (o : Option Int) : String :=
  match o with
  | some n => toString n
  | none => "None"

/-- Python str() of an optional string inside an f-string. -/
def pyOptStr (o : Option String) : String :=
  match o with
  | some s => s
  | none => "None"

/-- Branch 3 guard of `_categorize_status`: the `next_episode` dict is
truthy and its `air_date` is a truthy (non-`None`, nonempty) string;
returns the fields the SCHEDULED message uses. -/
def next_ep_scheduled (next_episode : Option Episode) :
    Option (String × Option Int × Option Int) :=
  match next_episode with
  | some ep =>
    match ep.air_date with
    | some a => if a != "" then some (a, ep.season_number, ep.episode_number) else none
    | none => none
  | none => none

/-- Model of `production_intel._categorize_status`, with `date.today()` made the
explicit `today` ordinal parameter.  The if/elif cascade is translated
branch for branch, first match wins. -/
def categorize_status (today : ℤ) (status : String) (in_production : Bool)
    (next_episode : Option Episode) (last_air_date : Option String)
    (last_episode : Option Episode) (show_title : String) :
    String × String × String :=
  if status == "Ended" then
    match last_air_date with
    | some lad =>
      if lad != "" then
        ("ENDED", "high", "Series concluded. Final episode aired " ++ format_date lad ++ ".")
      else ("ENDED", "high", "Series has concluded.")
    | none => ("ENDED", "high", "Series has concluded.")
  else if status == "Canceled" then
    match last_air_date with
    | some lad =>
      if lad != "" then
        ("CANCELED", "high", "Canceled. Last episode aired " ++ format_date lad ++ ".")
      else ("CANCELED", "high", "Show has been canceled.")
    | none => ("CANCELED", "high", "Show has been canceled.")
  else
    match next_ep_scheduled next_episode with
    | some (air_date, season, episode) =>
      ("SCHEDULED", "high",
        "Next episode: S" ++ pyOptIntStr season ++ "E" ++ pyOptIntStr episode
          ++ " on " ++ format_date air_date)
    | none =>
      if in_production && status == "Returning Series" then
        ("IN PRODUCTION", "high",
          "Currently in production. New season confirmed but air date not announced.")
      else if status == "Returning Series" then
        match last_air_date with
        | some lad =>
          if lad != "" then
            let ys := years_since today lad
            if ys < 1 then
              ("RETURNING SOON", "medium",
                "Show is active. Last aired " ++ format_date lad ++ ". New season expected.")
            else if ys < 3 then
              ("UNCERTAIN", "low",
                "Marked as returning series, but last aired " ++ format_date lad
                  ++ " (" ++ fmt_years ys ++ " years ago). Status unclear.")
            else
              ("ON HIATUS", "low",
                "On extended hiatus. Last aired " ++ format_date lad
                  ++ " (" ++ fmt_years ys ++ " years ago).")
          else ("RETURNING SOON", "medium", "Marked as returning series. No air date announced.")
        | none => ("RETURNING SOON", "medium", "Marked as returning series. No air date announced.")
      else if in_production then
        ("IN PRODUCTION", "medium",
          "Currently in production. Status and air date to be confirmed.")
      else if status == "Planned" then
        ("RENEWED", "medium", "Show has been renewed. Production has not yet started.")
      else if status == "Pilot" then
        ("PILOT", "high", "Pilot episode available. Series pickup not yet confirmed.")
      else
        match last_air_date with
        | some lad =>
          if lad != "" then
            let ys := years_since today lad
            if ys > 10 then
              ("LEGACY", "high",
                "Classic show. Last aired " ++ format_date lad
                  ++ " (" ++ fmt_years ys ++ " years ago). No new episodes expected.")
            else if ys > 5 then
              ("ON HIATUS", "medium",
                "On extended hiatus. Last aired " ++ format_date lad
                  ++ " (" ++ fmt_years ys ++ " years ago).")
            else ("UNCERTAIN", "low", "Status uncertain. Check TMDB or search online for production news.")
          else ("UNCERTAIN", "low", "Status uncertain. Check TMDB or search online for production news.")
        | none => ("UNCERTAIN", "low", "Status uncertain. Check TMDB or search online for production news.")

/-- Boolean substring test (used only to state claims about messages). -/
def charsSubstr : List Char → List Char → Bool
  | n, [] => n.isEmpty
  | n, c :: t => List.isPrefixOf n (c :: t) || charsSubstr n t

/-- Test that `needle` occurs as a contiguous substring of `haystack`. -/
def substrOf (needle haystack : String) : Bool :=
  charsSubstr needle.data haystack.data

/-- Model of `production_intel._search_production_news`: the source returns `None`
unconditionally (web search not yet wired in). -/
def search_production_news (show_title : String) : Option String :=
  none

/-- TMDB show details dictionary as built by
`show_status.fetch_show_status` (defaults already applied there). -/
structure StatusInfo where
  tmdb_id : Nat
  name : String
  status : String
  showType : String
  last_air_date : Option String
  number_of_seasons : Nat
  number_of_episodes : Nat
  in_production : Bool
  next_episode_to_air : Option Episode
  last_episode_to_air : Option Episode
deriving DecidableEq, Repr

/-- Result dictionary of `production_intel.get_enhanced_status`; the
`web_intel` key is absent (`none`) unless web intel was found. -/
structure EnhancedStatus where
  category : String
  confidence : String
  message : String
  tmdb_status : String
  in_production : Bool
  has_next_episode : Bool
  last_air_date : Option String
  needs_research : Bool
  web_intel : Option String
deriving Repr

/-- Model of `production_intel.get_enhanced_status`, with `date.today()` as the
explicit `today` parameter. -/
def get_enhanced_status (today : ℤ) (show_title : String) (tmdb_id : Nat)
    (tmdb_data : StatusInfo) (use_web_search : Bool) : EnhancedStatus :=
  let status := tmdb_data.status
  let in_production := tmdb_data.in_production
  let next_episode := tmdb_data.next_episode_to_air
  let last_air_date := tmdb_data.last_air_date
  let last_episode := tmdb_data.last_episode_to_air
  let c := categorize_status today status in_production next_episode
    last_air_date last_episode show_title
  let result : EnhancedStatus :=
    { category := c.1
      confidence := c.2.1
      message := c.2.2
      tmdb_status := status
      in_production := in_production
      has_next_episode := next_episode.isSome
      last_air_date := last_air_date
      needs_research := c.2.1 == "low" && !(status == "Ended" || status == "Canceled")
      web_intel := none }
  if use_web_search && result.needs_research then
    match search_production_news show_title with
    | some wi => { result with web_intel := some wi, message := result.message ++ "\n\n" ++ wi }
    | none => result
  else result

/-- One row of the `shows` table, restricted to the columns the status
engine reads and writes. -/
structure Row where
  user_id : String
  tmdb_id : Nat
  title : String
  show_status : String
  last_status_check : Option String
deriving DecidableEq, Repr

/-- One call made to `notifications.create_notification` (the output the
reconciler produces for the notification collaborator). -/
structure NotifCall where
  user_id : String
  notification_type : String
  title : String
  message : String
  related_show_id : Nat
  related_show_title : String
  send_email : Bool
deriving DecidableEq, Repr

/-- Persistent state touched by the reconciler: the `shows` table and the
ordered log of notification calls emitted so far. -/
structure St where
  shows : List Row
  notifs : List NotifCall
deriving DecidableEq, Repr

/-- Environment of one reconciliation run: the TMDB fetch oracle (`none`
models `fetch_show_status` returning `None` on any upstream error), the
failure oracles for the per-entry select/update `.execute()` calls and
for the batch select, and the value of `dt.datetime.now().isoformat()`. -/
structure Env where
  fetch : Nat → Option StatusInfo
  select_fails : String → Nat → Bool
  update_fails : String → Nat → Bool
  batch_select_fails : Bool
  now : String

/-- Python truthiness of an optional number (`if season and episode:`):
`None` and `0` are falsy. -/
def intTruthy (o : Option Int) : Bool :=
  match o with
  | some n => n != 0
  | none => false

/-- Model of `show_status.notify_status_change`: build and record the
`create_notification` call for a change to Ended or Canceled; any other
new status records nothing. -/
def notify_status_change (st : St) (user_id : String) (tmdb_id : Nat)
    (show_title : String) (old_status new_status : String)
    (status_info : StatusInfo) : St :=
  if new_status == "Ended" then
    let last_episode := status_info.last_episode_to_air
    let last_air_date := pyOptStr status_info.last_air_date
    let title := "🎭 Series Finale: " ++ show_title
    let message := show_title ++ " has ended. The final episode aired on " ++ last_air_date ++ "."
    let message :=
      match last_episode with
      | some ep =>
        if intTruthy ep.season_number && intTruthy ep.episode_number then
          message ++ " (S" ++ pyOptIntStr ep.season_number ++ "E" ++ pyOptIntStr ep.episode_number ++ ")"
        else message
      | none => message
    { st with notifs := st.notifs ++
        [{ user_id := user_id, notification_type := "series_finale", title := title,
           message := message, related_show_id := tmdb_id,
           related_show_title := show_title, send_email := true }] }
  else if new_status == "Canceled" then
    let num_seasons := status_info.number_of_seasons
    let title := "❌ Show Canceled: " ++ show_title
    let message := show_title ++ " has been canceled after " ++ toString num_seasons
      ++ " season" ++ (if num_seasons != 1 then "s" else "") ++ "."
    { st with notifs := st.notifs ++
        [{ user_id := user_id, notification_type := "series_cancelled", title := title,
           message := message, related_show_id := tmdb_id,
           related_show_title := show_title, send_email := true }] }
  else st

/-- The write of the per-entry update call on one row: set `show_status`
and `last_status_check` on every row matching `(user_id, tmdb_id)`. -/
def upd_row (user_id : String) (tmdb_id : Nat) (new_status now : String)
    (r : Row) : Row :=
  if r.user_id == user_id && r.tmdb_id == tmdb_id then
    { r with show_status := new_status, last_status_check := some now }
  else r

/-- The rows the per-entry select returns for `(user_id, tmdb_id)`. -/
def rows_for (st : St) (user_id : String) (tmdb_id : Nat) : List Row :=
  st.shows.filter (fun r => r.user_id == user_id && r.tmdb_id == tmdb_id)

/-- Value of `result.data[0]` of the per-entry select, when any row matches. -/
def first_match (st : St) (user_id : String) (tmdb_id : Nat) : Option Row :=
  (rows_for st user_id tmdb_id).head?

/-- Model of `show_status.update_show_status`: fetch the fresh status, read the
stored row, write status and `last_status_check` back, and notify on a
change to Ended/Canceled.  Returns the new status, or `none` wherever the
source returns `None` (fetch failure, raising select/update, missing
row). -/
def update_show_status (env : Env) (st : St) (user_id : String)
    (tmdb_id : Nat) (show_title : String) : Option String × St :=
  match env.fetch tmdb_id with
  | none => (none, st)
  | some status_info =>
    let new_status := status_info.status
    if env.select_fails user_id tmdb_id then (none, st)
    else
      match rows_for st user_id tmdb_id with
      | [] => (none, st)
      | row :: _ =>
        let old_status := row.show_status
        let status_changed := old_status != new_status
        if env.update_fails user_id tmdb_id then (none, st)
        else
          let st1 : St :=
            { st with shows := st.shows.map (upd_row user_id tmdb_id new_status env.now) }
          let st2 :=
            if status_changed && (new_status == "Ended" || new_status == "Canceled") then
              notify_status_change st1 user_id tmdb_id show_title old_status new_status status_info
            else st1
          (some new_status, st2)

/-- Counters aggregated by `check_all_shows_status`. -/
structure Stats where
  total : Nat
  updated : Nat
  unchanged : Nat
  errors : Nat
deriving DecidableEq, Repr

/-- Body of the loop in `check_all_shows_status`, for one row of the
batch-select snapshot. -/
def check_show_step (env : Env) (user_id : String) (acc : Stats × St)
    (show_row : Row) : Stats × St :=
  let stats := acc.1
  let old_status := show_row.show_status
  let res := update_show_status env acc.2 user_id show_row.tmdb_id show_row.title
  match res.1 with
  | none => ({ stats with errors := stats.errors + 1 }, res.2)
  | some new_status =>
    if new_status != old_status then ({ stats with updated := stats.updated + 1 }, res.2)
    else ({ stats with unchanged := stats.unchanged + 1 }, res.2)

/-- Model of `show_status.check_all_shows_status`: check every entry of the user's
watchlist and aggregate counts.  When the batch select itself raises, the
source's `except` branch returns `{"total": 0, "updated": 0,
"unchanged": 0, "errors": 1}`. -/
def check_all_shows_status (env : Env) (st : St) (user_id : String) :
    Stats × St :=
  if env.batch_select_fails then (⟨0, 0, 0, 1⟩, st)
  else
    let rows := st.shows.filter (fun r => r.user_id == user_id)
    if rows.isEmpty then (⟨0, 0, 0, 0⟩, st)
    else rows.foldl (check_show_step env user_id) (⟨rows.length, 0, 0, 0⟩, st)


/-! ## Classifier lemmas -/

/-- Reference day for concrete scenarios: ordinal of 2025-03-01. -/
def refToday : ℤ := (toOrdinal ⟨2025, 3, 1⟩ : ℤ)

lemma years_since_parse_none (t : ℤ) (s : String) (h : parseYMD s = none) :
    years_since t s = 0 := by
  unfold years_since
  rw [h]

lemma years_since_empty (t : ℤ) : years_since t "" = 0 := rfl

/-- Every value `_years_since` can produce is an integer divided by
365.25, so it never equals an integer not divisible by 4. -/
lemma years_since_ne_int (t : ℤ) (s : String) (k : ℤ) (hk : ¬ (4 ∣ k)) :
    years_since t s ≠ (k : ℚ) := by
  intro h
  cases hp : parseYMD s with
  | none =>
    rw [years_since_parse_none t s hp] at h
    have hk0 : k ≠ 0 := by rintro rfl; exact hk ⟨0, rfl⟩
    exact hk0 (by exact_mod_cast h.symm)
  | some x =>
    have hx : years_since t s = ((t - (toOrdinal x : ℤ) : ℤ) : ℚ) / (365.25 : ℚ) := by
      unfold years_since
      rw [hp]
    rw [hx] at h
    rw [div_eq_iff (by norm_num : (365.25 : ℚ) ≠ 0)] at h
    push_cast at h
    have h4 : ((t : ℚ) - (toOrdinal x : ℚ)) * 4 = (k : ℚ) * 1461 := by
      linear_combination (4 : ℚ) * h
    have h5 : (t - (toOrdinal x : ℤ)) * 4 = k * 1461 := by exact_mod_cast h4
    omega

set_option maxHeartbeats 1000000 in
/-- The classifier's confidence is always one of the three levels. -/
lemma conf_mem (today : ℤ) (status : String) (inprod : Bool)
    (nep : Option Episode) (lad : Option String) (lep : Option Episode)
    (title : String) :
    (categorize_status today status inprod nep lad lep title).2.1 = "high"
    ∨ (categorize_status today status inprod nep lad lep title).2.1 = "medium"
    ∨ (categorize_status today status inprod nep lad lep title).2.1 = "low" := by
  unfold categorize_status
  repeat' split
  all_goals dsimp only
  all_goals repeat' split
  all_goals first
    | exact Or.inl rfl
    | exact Or.inr (Or.inl rfl)
    | exact Or.inr (Or.inr rfl)

set_option maxHeartbeats 1000000 in
/-- Branch 1 of the cascade: `status == "Ended"` dominates. -/
lemma cat_ended (today : ℤ) (inprod : Bool) (nep : Option Episode)
    (lad : Option String) (lep : Option Episode) (title : String) :
    (categorize_status today "Ended" inprod nep lad lep title).1 = "ENDED"
    ∧ (categorize_status today "Ended" inprod nep lad lep title).2.1 = "high" := by
  refine ⟨?_, ?_⟩ <;>
  · unfold categorize_status
    rw [if_pos (by decide : (("Ended" == "Ended") = true))]
    repeat' split
    all_goals rfl

set_option maxHeartbeats 1000000 in
/-- Branch 2 of the cascade: `status == "Canceled"` dominates (after Ended). -/
lemma cat_canceled (today : ℤ) (inprod : Bool) (nep : Option Episode)
    (lad : Option String) (lep : Option Episode) (title : String) :
    (categorize_status today "Canceled" inprod nep lad lep title).1 = "CANCELED"
    ∧ (categorize_status today "Canceled" inprod nep lad lep title).2.1 = "high" := by
  refine ⟨?_, ?_⟩ <;>
  · unfold categorize_status
    rw [if_neg (by decide : ¬ (("Canceled" == "Ended") = true))]
    rw [if_pos (by decide : (("Canceled" == "Canceled") = true))]
    repeat' split
    all_goals rfl

set_option maxHeartbeats 1000000 in
/-- The only leaves with category ENDED or CANCELED carry confidence high. -/
lemma cat_EC_high (today : ℤ) (status : String) (inprod : Bool)
    (nep : Option Episode) (lad : Option String) (lep : Option Episode)
    (title : String) :
    ((categorize_status today status inprod nep lad lep title).1 = "ENDED"
      ∨ (categorize_status today status inprod nep lad lep title).1 = "CANCELED") →
    (categorize_status today status inprod nep lad lep title).2.1 = "high" := by
  unfold categorize_status
  repeat' split
  all_goals dsimp only
  all_goals repeat' split
  all_goals intro h
  all_goals try dsimp only at h ⊢
  all_goals first
    | rfl
    | (rcases h with h | h <;> exact absurd h (by decide))
set_option maxHeartbeats 1000000 in
lemma categorize_returning (today : ℤ) (lad : String) (lep : Option Episode) (title : String) :
    categorize_status today "Returning Series" false none (some lad) lep title
      = (if lad = "" then
           ("RETURNING SOON", "medium", "Marked as returning series. No air date announced.")
         else if years_since today lad < 1 then
           ("RETURNING SOON", "medium",
             "Show is active. Last aired " ++ format_date lad ++ ". New season expected.")
         else if years_since today lad < 3 then
           ("UNCERTAIN", "low",
             "Marked as returning series, but last aired " ++ format_date lad
               ++ " (" ++ fmt_years (years_since today lad) ++ " years ago). Status unclear.")
         else
           ("ON HIATUS", "low",
             "On extended hiatus. Last aired " ++ format_date lad
               ++ " (" ++ fmt_years (years_since today lad) ++ " years ago).")) := by
  by_cases hlad : lad = ""
  · subst hlad
    rw [if_pos rfl]
    rfl
  · rw [if_neg hlad]
    simp [categorize_status, next_ep_scheduled, hlad]

set_option maxHeartbeats 1000000 in
lemma categorize_other (today : ℤ) (status : String) (nep : Option Episode)
    (lad : String) (lep : Option Episode) (title : String)
    (h1 : status ≠ "Ended") (h2 : status ≠ "Canceled")
    (h3 : next_ep_scheduled nep = none) (h5 : status ≠ "Returning Series")
    (h7 : status ≠ "Planned") (h8 : status ≠ "Pilot") :
    categorize_status today status false nep (some lad) lep title
      = (if lad = "" then
           ("UNCERTAIN", "low", "Status uncertain. Check TMDB or search online for production news.")
         else if years_since today lad > 10 then
           ("LEGACY", "high",
             "Classic show. Last aired " ++ format_date lad
               ++ " (" ++ fmt_years (years_since today lad) ++ " years ago). No new episodes expected.")
         else if years_since today lad > 5 then
           ("ON HIATUS", "medium",
             "On extended hiatus. Last aired " ++ format_date lad
               ++ " (" ++ fmt_years (years_since today lad) ++ " years ago).")
         else
           ("UNCERTAIN", "low", "Status uncertain. Check TMDB or search online for production news.")) := by
  by_cases hlad : lad = ""
  · subst hlad
    rw [if_pos rfl]
    simp [categorize_status, h1, h2, h3, h5, h7, h8]
  · rw [if_neg hlad]
    simp [categorize_status, h1, h2, h3, h5, h7, h8, hlad]

/-! ## Claim C5 -/

/-- C5: for every classification input the classifier returns exactly one
category/confidence pair (it is a total function), the confidence is one
of the three levels, and `status = "Ended"` always yields category ENDED
with confidence high regardless of `in_production`, `next_episode` or
`last_air_date`. -/
theorem C5_cascade_deterministic :
    (∀ (today : ℤ) (status : String) (inprod : Bool) (nep : Option Episode)
      (lad : Option String) (lep : Option Episode) (title : String),
      (categorize_status today status inprod nep lad lep title).2.1 = "high"
      ∨ (categorize_status today status inprod nep lad lep title).2.1 = "medium"
      ∨ (categorize_status today status inprod nep lad lep title).2.1 = "low")
    ∧ (∀ (today : ℤ) (inprod : Bool) (nep : Option Episode) (lad : Option String)
      (lep : Option Episode) (title : String),
      (categorize_status today "Ended" inprod nep lad lep title).1 = "ENDED"
      ∧ (categorize_status today "Ended" inprod nep lad lep title).2.1 = "high") :=
  ⟨conf_mem, fun today inprod nep lad lep title => cat_ended today inprod nep lad lep title⟩

/-! ## Claim C9 -/

/-- C9: the classifier is total on every `last_air_date` string and never
raises: an unparseable date makes `_years_since` return `0.0`, so a
"Returning Series" show that is not in production and has no next episode
is classified RETURNING SOON with confidence medium, exactly like a show
that aired less than one year ago. -/
theorem C9_unparseable_date_safe :
    ∀ (today : ℤ) (s : String) (lep : Option Episode) (title : String),
      parseYMD s = none →
      years_since today s = 0
      ∧ (categorize_status today "Returning Series" false none (some s) lep title).1
          = "RETURNING SOON"
      ∧ (categorize_status today "Returning Series" false none (some s) lep title).2.1
          = "medium" := by
  intro today s lep title h
  refine ⟨years_since_parse_none today s h, ?_, ?_⟩ <;>
  · rw [categorize_returning]
    by_cases hs : s = ""
    · rw [if_pos hs]
    · rw [if_neg hs, years_since_parse_none today s h,
        if_pos (by norm_num : (0 : ℚ) < 1)]

/-- C9 witness: the concrete malformed date `"not-a-date"`. -/
theorem C9_witness :
    parseYMD "not-a-date" = none
    ∧ years_since refToday "not-a-date" = 0
    ∧ (categorize_status refToday "Returning Series" false none (some "not-a-date") none "Show").1
        = "RETURNING SOON"
    ∧ (categorize_status refToday "Returning Series" false none (some "not-a-date") none "Show").2.1
        = "medium" :=
  ⟨by decide, C9_unparseable_date_safe refToday "not-a-date" none "Show" (by decide)⟩

/-! ## Claim C6 -/

/-- C6 counterexample: no classification input can make the elapsed-years
computation produce exactly 1.0 (or exactly 3.0): the value is an integer
day count divided by 365.25, so both boundary values named by the claim
are unattainable. -/
theorem C6_counterexample :
    ¬ ∃ (today : ℤ) (s : String),
      (years_since today s = 1 ∨ years_since today s = 3) := by
  rintro ⟨t, s, h | h⟩
  · exact years_since_ne_int t s 1 (by decide) (by exact_mod_cast h)
  · exact years_since_ne_int t s 3 (by decide) (by exact_mod_cast h)

/-- C6 amended: the exact values 1.0 and 3.0 are unattainable, and the
boundary ownership the claim describes holds in inequality form: for a
"Returning Series" show, not in production, with no next episode, any
elapsed time with `1 ≤ years < 3` classifies UNCERTAIN/low (the boundary
belongs to the `≥ 1` branch), and any elapsed time with `years ≥ 3`
classifies ON HIATUS/low. -/
theorem C6_amended_boundaries :
    ∀ (today : ℤ) (s : String) (lep : Option Episode) (title : String),
      (1 ≤ years_since today s → years_since today s < 3 →
        (categorize_status today "Returning Series" false none (some s) lep title).1
            = "UNCERTAIN"
        ∧ (categorize_status today "Returning Series" false none (some s) lep title).2.1
            = "low")
      ∧ (3 ≤ years_since today s →
        (categorize_status today "Returning Series" false none (some s) lep title).1
            = "ON HIATUS"
        ∧ (categorize_status today "Returning Series" false none (some s) lep title).2.1
            = "low") := by
  intro today s lep title
  have hs : 1 ≤ years_since today s → s ≠ "" := by
    intro h1 hs0
    rw [hs0, years_since_empty] at h1
    norm_num at h1
  constructor
  · intro h1 h3
    rw [categorize_returning, if_neg (hs h1), if_neg (not_lt.mpr h1), if_pos h3]
    exact ⟨rfl, rfl⟩
  · intro h3
    have h1 : 1 ≤ years_since today s := le_trans (by norm_num) h3
    rw [categorize_returning, if_neg (hs h1), if_neg (not_lt.mpr h1),
      if_neg (not_lt.mpr h3)]
    exact ⟨rfl, rfl⟩

/-- C6 witness: 366 elapsed days (1.002 years) lands in UNCERTAIN, and
1096 elapsed days (3.0007 years) lands in ON HIATUS. -/
theorem C6_witness :
    (1 ≤ years_since refToday "2024-02-29"
      ∧ years_since refToday "2024-02-29" < 3
      ∧ (categorize_status refToday "Returning Series" false none (some "2024-02-29") none "Show").1
          = "UNCERTAIN")
    ∧ (3 ≤ years_since refToday "2022-03-01"
      ∧ (categorize_status refToday "Returning Series" false none (some "2022-03-01") none "Show").1
          = "ON HIATUS") := by
  have e1 : years_since refToday "2024-02-29" = (366 : ℚ) / (365.25 : ℚ) := by
    simp only [years_since, (by decide : parseYMD "2024-02-29" = some ⟨2024, 2, 29⟩)]
    norm_num [show toOrdinal ⟨2024, 2, 29⟩ = 738945 from by decide,
      show refToday = 739311 from by decide]
  have e2 : years_since refToday "2022-03-01" = (1096 : ℚ) / (365.25 : ℚ) := by
    simp only [years_since, (by decide : parseYMD "2022-03-01" = some ⟨2022, 3, 1⟩)]
    norm_num [show toOrdinal ⟨2022, 3, 1⟩ = 738215 from by decide,
      show refToday = 739311 from by decide]
  have hb1 : 1 ≤ years_since refToday "2024-02-29" := by rw [e1]; norm_num
  have hb2 : years_since refToday "2024-02-29" < 3 := by rw [e1]; norm_num
  have hb3 : (3 : ℚ) ≤ years_since refToday "2022-03-01" := by rw [e2]; norm_num
  exact ⟨⟨hb1, hb2,
      ((C6_amended_boundaries refToday "2024-02-29" none "Show").1 hb1 hb2).1⟩,
    ⟨hb3, ((C6_amended_boundaries refToday "2022-03-01" none "Show").2 hb3).1⟩⟩

/-! ## Claim C7 -/

/-- C7: when none of branches 1-8 matches (status none of the five named
strings, not in production, no scheduled next episode) and a last air
date is present, more than 10 elapsed years classifies LEGACY/high and
an elapsed time in the 5-10 year range classifies ON HIATUS/medium. -/
theorem C7_old_show_branch :
    ∀ (today : ℤ) (status : String) (nep : Option Episode) (s : String)
      (lep : Option Episode) (title : String),
      status ≠ "Ended" → status ≠ "Canceled" → status ≠ "Returning Series" →
      status ≠ "Planned" → status ≠ "Pilot" → next_ep_scheduled nep = none →
      (10 < years_since today s →
        (categorize_status today status false nep (some s) lep title).1 = "LEGACY"
        ∧ (categorize_status today status false nep (some s) lep title).2.1 = "high")
      ∧ (5 ≤ years_since today s → years_since today s ≤ 10 →
        (categorize_status today status false nep (some s) lep title).1 = "ON HIATUS"
        ∧ (categorize_status today status false nep (some s) lep title).2.1 = "medium") := by
  intro today status nep s lep title h1 h2 h5 h7 h8 h3
  constructor
  · intro h10
    have hne : s ≠ "" := by
      intro h0
      rw [h0, years_since_empty] at h10
      norm_num at h10
    rw [categorize_other today status nep s lep title h1 h2 h3 h5 h7 h8,
      if_neg hne, if_pos h10]
    exact ⟨rfl, rfl⟩
  · intro h5le h10le
    have hne : s ≠ "" := by
      intro h0
      rw [h0, years_since_empty] at h5le
      norm_num at h5le
    have hgt5 : 5 < years_since today s := by
      rcases lt_or_eq_of_le h5le with h | h
      · exact h
      · exact absurd (by exact_mod_cast h.symm)
          (years_since_ne_int today s 5 (by decide))
    rw [categorize_other today status nep s lep title h1 h2 h3 h5 h7 h8,
      if_neg hne, if_neg (not_lt.mpr h10le), if_pos hgt5]
    exact ⟨rfl, rfl⟩

/-- C7 witness: 2010-01-01 (15.2 years before the reference day) is
LEGACY, 2018-06-15 (6.7 years) is ON HIATUS. -/
theorem C7_witness :
    (10 < years_since refToday "2010-01-01"
      ∧ (categorize_status refToday "Unknown" false none (some "2010-01-01") none "Show").1
          = "LEGACY")
    ∧ (5 ≤ years_since refToday "2018-06-15"
      ∧ years_since refToday "2018-06-15" ≤ 10
      ∧ (categorize_status refToday "Unknown" false none (some "2018-06-15") none "Show").1
          = "ON HIATUS") := by
  have e1 : years_since refToday "2010-01-01" = (5538 : ℚ) / (365.25 : ℚ) := by
    simp only [years_since, (by decide : parseYMD "2010-01-01" = some ⟨2010, 1, 1⟩)]
    norm_num [show toOrdinal ⟨2010, 1, 1⟩ = 733773 from by decide,
      show refToday = 739311 from by decide]
  have e2 : years_since refToday "2018-06-15" = (2451 : ℚ) / (365.25 : ℚ) := by
    simp only [years_since, (by decide : parseYMD "2018-06-15" = some ⟨2018, 6, 15⟩)]
    norm_num [show toOrdinal ⟨2018, 6, 15⟩ = 736860 from by decide,
      show refToday = 739311 from by decide]
  have hb1 : 10 < years_since refToday "2010-01-01" := by rw [e1]; norm_num
  have hb2 : (5 : ℚ) ≤ years_since refToday "2018-06-15" := by rw [e2]; norm_num
  have hb3 : years_since refToday "2018-06-15" ≤ 10 := by rw [e2]; norm_num
  exact ⟨⟨hb1,
      ((C7_old_show_branch refToday "Unknown" none "2010-01-01" none "Show"
        (by decide) (by decide) (by decide) (by decide) (by decide) rfl).1 hb1).1⟩,
    ⟨hb2, hb3,
      ((C7_old_show_branch refToday "Unknown" none "2018-06-15" none "Show"
        (by decide) (by decide) (by decide) (by decide) (by decide) rfl).2 hb2 hb3).1⟩⟩

/-! ## Claim C8 -/

/-- Lemma: `get_enhanced_status` always returns the record built from the
classifier output: the web-search arm is inert because
`_search_production_news` returns `None` unconditionally. -/
lemma get_enhanced_eq (today : ℤ) (title : String) (id : Nat)
    (td : StatusInfo) (uws : Bool) :
    get_enhanced_status today title id td uws =
      { category := (categorize_status today td.status td.in_production
          td.next_episode_to_air td.last_air_date td.last_episode_to_air title).1
        confidence := (categorize_status today td.status td.in_production
          td.next_episode_to_air td.last_air_date td.last_episode_to_air title).2.1
        message := (categorize_status today td.status td.in_production
          td.next_episode_to_air td.last_air_date td.last_episode_to_air title).2.2
        tmdb_status := td.status
        in_production := td.in_production
        has_next_episode := td.next_episode_to_air.isSome
        last_air_date := td.last_air_date
        needs_research := (categorize_status today td.status td.in_production
            td.next_episode_to_air td.last_air_date td.last_episode_to_air title).2.1 == "low"
          && !(td.status == "Ended" || td.status == "Canceled")
        web_intel := none } := by
  unfold get_enhanced_status search_production_news
  dsimp only
  rw [ite_self]

/-- The 400-days-ago scenario date used by the C8 claim. -/
def infoC8 : StatusInfo :=
  { tmdb_id := 1, name := "Show", status := "Returning Series",
    showType := "Scripted", last_air_date := some "2024-01-26",
    number_of_seasons := 3, number_of_episodes := 30, in_production := false,
    next_episode_to_air := none, last_episode_to_air := none }

/-- C8: `needs_research` is true iff the returned confidence is low and
the returned category is neither ENDED nor CANCELED; and the scenario
with status "Returning Series", not in production, last air date 400
days in the past yields UNCERTAIN / low / needs_research true. -/
theorem C8_needs_research_iff :
    (∀ (today : ℤ) (title : String) (id : Nat) (td : StatusInfo) (uws : Bool),
      ((get_enhanced_status today title id td uws).needs_research = true
        ↔ ((get_enhanced_status today title id td uws).confidence = "low"
          ∧ (get_enhanced_status today title id td uws).category ≠ "ENDED"
          ∧ (get_enhanced_status today title id td uws).category ≠ "CANCELED")))
    ∧ ((get_enhanced_status refToday "Show" 1 infoC8 false).category = "UNCERTAIN"
      ∧ (get_enhanced_status refToday "Show" 1 infoC8 false).confidence = "low"
      ∧ (get_enhanced_status refToday "Show" 1 infoC8 false).needs_research = true) := by
  constructor
  · intro today title id td uws
    rw [get_enhanced_eq]
    dsimp only
    constructor
    · intro h
      rw [Bool.and_eq_true, beq_iff_eq, Bool.not_eq_true',
        Bool.or_eq_false_iff, beq_eq_false_iff_ne, beq_eq_false_iff_ne] at h
      obtain ⟨hlow, hsE, hsC⟩ := h
      refine ⟨hlow, ?_, ?_⟩
      · intro hcat
        have hhigh := cat_EC_high today td.status td.in_production
          td.next_episode_to_air td.last_air_date td.last_episode_to_air title
          (Or.inl hcat)
        rw [hlow] at hhigh
        exact absurd hhigh (by decide)
      · intro hcat
        have hhigh := cat_EC_high today td.status td.in_production
          td.next_episode_to_air td.last_air_date td.last_episode_to_air title
          (Or.inr hcat)
        rw [hlow] at hhigh
        exact absurd hhigh (by decide)
    · rintro ⟨hlow, hne, hnc⟩
      have hsE : td.status ≠ "Ended" := by
        intro h
        rw [h] at hne
        exact hne (cat_ended today td.in_production td.next_episode_to_air
          td.last_air_date td.last_episode_to_air title).1
      have hsC : td.status ≠ "Canceled" := by
        intro h
        rw [h] at hnc
        exact hnc (cat_canceled today td.in_production td.next_episode_to_air
          td.last_air_date td.last_episode_to_air title).1
      simp [hlow, hsE, hsC]
  · have e3 : years_since refToday "2024-01-26" = (400 : ℚ) / (365.25 : ℚ) := by
      simp only [years_since, (by decide : parseYMD "2024-01-26" = some ⟨2024, 1, 26⟩)]
      norm_num [show toOrdinal ⟨2024, 1, 26⟩ = 738911 from by decide,
        show refToday = 739311 from by decide]
    have h1 : 1 ≤ years_since refToday "2024-01-26" := by rw [e3]; norm_num
    have h3 : years_since refToday "2024-01-26" < 3 := by rw [e3]; norm_num
    have hcat1 : (categorize_status refToday "Returning Series" false none
        (some "2024-01-26") none "Show").1 = "UNCERTAIN" := by
      rw [categorize_returning, if_neg (by decide : ¬("2024-01-26" = "")),
        if_neg (not_lt.mpr h1), if_pos h3]
    have hcat2 : (categorize_status refToday "Returning Series" false none
        (some "2024-01-26") none "Show").2.1 = "low" := by
      rw [categorize_returning, if_neg (by decide : ¬("2024-01-26" = "")),
        if_neg (not_lt.mpr h1), if_pos h3]
    refine ⟨?_, ?_, ?_⟩
    · rw [get_enhanced_eq]
      exact hcat1
    · rw [get_enhanced_eq]
      exact hcat2
    · rw [get_enhanced_eq]
      dsimp only
      rw [show (categorize_status refToday infoC8.status infoC8.in_production
          infoC8.next_episode_to_air infoC8.last_air_date infoC8.last_episode_to_air
          "Show").2.1 = "low" from hcat2]
      decide

/-! ## Claim C2 -/

/-- The next-episode object of the C2 scenario. -/
def epC2 : Episode :=
  { air_date := some "2025-03-01", season_number := some 4, episode_number := some 1 }

/-- C2 counterexample: for the scenario input the classifier does return
SCHEDULED with confidence high and the message contains "S4E1", but the
message does NOT contain the substring "2025-03-01" - `_format_date`
rewrites the air date to "March 01, 2025". -/
theorem C2_counterexample :
    (categorize_status refToday "Returning Series" false (some epC2) none none "Show").1
        = "SCHEDULED"
    ∧ (categorize_status refToday "Returning Series" false (some epC2) none none "Show").2.1
        = "high"
    ∧ substrOf "S4E1"
        (categorize_status refToday "Returning Series" false (some epC2) none none "Show").2.2
        = true
    ∧ substrOf "2025-03-01"
        (categorize_status refToday "Returning Series" false (some epC2) none none "Show").2.2
        = false := by
  decide

/-- C2 amended: for any non-Ended, non-Canceled status, the scenario
input classifies SCHEDULED / high and the message embeds "S4E1" together
with the human-formatted air date "March 01, 2025" (rather than the raw
string "2025-03-01"). -/
theorem C2_scheduled_message :
    ∀ (today : ℤ) (status : String) (inprod : Bool) (lad : Option String)
      (lep : Option Episode) (title : String),
      status ≠ "Ended" → status ≠ "Canceled" →
      categorize_status today status inprod (some epC2) lad lep title
        = ("SCHEDULED", "high", "Next episode: S4E1 on March 01, 2025")
      ∧ substrOf "S4E1" "Next episode: S4E1 on March 01, 2025" = true
      ∧ substrOf "March 01, 2025" "Next episode: S4E1 on March 01, 2025" = true
      ∧ substrOf "2025-03-01" "Next episode: S4E1 on March 01, 2025" = false := by
  intro today status inprod lad lep title h1 h2
  refine ⟨?_, by decide, by decide, by decide⟩
  have hsch : next_ep_scheduled (some epC2) = some ("2025-03-01", some 4, some 1) := by
    decide
  unfold categorize_status
  rw [if_neg (by simp [h1]), if_neg (by simp [h2]), hsch]
  rfl

/-- C2 amended-theorem witness at a concrete non-Ended status. -/
theorem C2_witness :
    categorize_status refToday "Returning Series" false (some epC2) none none "Show"
      = ("SCHEDULED", "high", "Next episode: S4E1 on March 01, 2025") :=
  (C2_scheduled_message refToday "Returning Series" false none none "Show"
    (by decide) (by decide)).1

/-! ## Reconciler lemmas -/

lemma notify_shows (st : St) (u : String) (id : Nat) (title old new : String)
    (info : StatusInfo) :
    (notify_status_change st u id title old new info).shows = st.shows := by
  unfold notify_status_change
  repeat' split
  all_goals rfl

lemma upd_row_user (u : String) (id : Nat) (s now : String) (r : Row) :
    (upd_row u id s now r).user_id = r.user_id := by
  unfold upd_row
  split <;> rfl

lemma upd_row_tmdb (u : String) (id : Nat) (s now : String) (r : Row) :
    (upd_row u id s now r).tmdb_id = r.tmdb_id := by
  unfold upd_row
  split <;> rfl

lemma rows_for_of_shows (st1 st2 : St) (u : String) (id : Nat)
    (h : st1.shows = st2.shows) :
    rows_for st1 u id = rows_for st2 u id := by
  unfold rows_for
  rw [h]

lemma rows_for_map_upd (st : St) (u : String) (id : Nat) (s now : String) :
    rows_for { st with shows := st.shows.map (upd_row u id s now) } u id
      = (rows_for st u id).map (upd_row u id s now) := by
  unfold rows_for
  dsimp only
  rw [List.filter_map]
  congr 1
  apply List.filter_congr
  intro r _
  simp [Function.comp, upd_row_user, upd_row_tmdb]

/-- Characterization of a successful `update_show_status` call. -/
lemma update_success (env : Env) (st : St) (u : String) (id : Nat)
    (title : String) (s : String) (st2 : St)
    (h : update_show_status env st u id title = (some s, st2)) :
    ∃ info row rest,
      env.fetch id = some info ∧ info.status = s
      ∧ env.select_fails u id = false ∧ env.update_fails u id = false
      ∧ rows_for st u id = row :: rest
      ∧ st2.shows = st.shows.map (upd_row u id s env.now)
      ∧ (st2.notifs = st.notifs
          ∨ (row.show_status ≠ s ∧ (s = "Ended" ∨ s = "Canceled"))) := by
  unfold update_show_status at h
  split at h
  · exact absurd h (by simp)
  next info hf =>
    dsimp only at h
    split at h
    · exact absurd h (by simp)
    next hsf =>
      split at h
      · exact absurd h (by simp)
      next row rest hrows =>
        split at h
        · exact absurd h (by simp)
        next huf =>
          rw [Prod.mk.injEq, Option.some.injEq] at h
          obtain ⟨hs, hst⟩ := h
          refine ⟨info, row, rest, hf, hs, by simpa using hsf, by simpa using huf,
            hrows, ?_, ?_⟩
          · rw [← hst]
            split
            · rw [notify_shows]
              rw [hs]
            · rw [hs]
          · rw [← hst]
            split
            next hcond =>
              right
              rw [Bool.and_eq_true, bne_iff_ne, Bool.or_eq_true, beq_iff_eq,
                beq_iff_eq] at hcond
              rw [← hs]
              exact hcond
            · left
              rfl

/-- A failing `update_show_status` call leaves the state untouched. -/
lemma update_none_state (env : Env) (st : St) (u : String) (id : Nat)
    (title : String) (st2 : St)
    (h : update_show_status env st u id title = (none, st2)) : st2 = st := by
  unfold update_show_status at h
  split at h
  · exact ((Prod.mk.injEq _ _ _ _).mp h).2.symm
  · dsimp only at h
    split at h
    · exact ((Prod.mk.injEq _ _ _ _).mp h).2.symm
    · split at h
      · exact ((Prod.mk.injEq _ _ _ _).mp h).2.symm
      · split at h
        · exact ((Prod.mk.injEq _ _ _ _).mp h).2.symm
        · exact absurd ((Prod.mk.injEq _ _ _ _).mp h).1 (by simp)

/-- When the fetched status equals the stored one, the call emits no
notification (whatever else happens). -/
lemma update_unchanged_no_notify (env : Env) (st : St) (u : String) (id : Nat)
    (title : String) (info : StatusInfo) (row : Row) (rest : List Row)
    (hf : env.fetch id = some info)
    (hrows : rows_for st u id = row :: rest)
    (hstat : row.show_status = info.status) :
    ((update_show_status env st u id title).2).notifs = st.notifs := by
  unfold update_show_status
  rw [hf]
  dsimp only
  by_cases hsf : env.select_fails u id = true
  · rw [if_pos hsf]
  · rw [if_neg hsf, hrows]
    dsimp only
    by_cases huf : env.update_fails u id = true
    · rw [if_pos huf]
    · rw [if_neg huf, hstat]
      simp only [bne_self_eq_false, Bool.false_and, Bool.false_eq_true, if_false]

lemma notify_notifs_ended (st : St) (u : String) (id : Nat) (title old : String)
    (info : StatusInfo) :
    (notify_status_change st u id title old "Ended" info).notifs.map
        (fun n => n.notification_type)
      = st.notifs.map (fun n => n.notification_type) ++ ["series_finale"] := by
  unfold notify_status_change
  rw [if_pos (by decide : (("Ended" == "Ended") = true))]
  dsimp only
  rw [List.map_append]
  rfl

lemma notify_notifs_cancelled (st : St) (u : String) (id : Nat) (title old : String)
    (info : StatusInfo) :
    (notify_status_change st u id title old "Canceled" info).notifs.map
        (fun n => n.notification_type)
      = st.notifs.map (fun n => n.notification_type) ++ ["series_cancelled"] := by
  unfold notify_status_change
  rw [if_neg (by decide : ¬ (("Canceled" == "Ended") = true))]
  rw [if_pos (by decide : (("Canceled" == "Canceled") = true))]
  dsimp only
  rw [List.map_append]
  rfl

/-! ## Claim C3 -/

/-- C3: on every successful reconciliation call the store receives the
freshly fetched raw status and the new `last_status_check` (for every
matching row, and at least one row matches); a notification is emitted
only when the new raw status differs from the stored one AND is Ended or
Canceled; and an immediate second call with the same environment
(unchanged upstream status) emits no further notification. -/
theorem C3_reconciler_write_and_idempotence :
    ∀ (env : Env) (st : St) (u : String) (id : Nat) (title : String),
      (∀ (s : String) (st2 : St),
        update_show_status env st u id title = (some s, st2) →
        (∀ r ∈ st2.shows, r.user_id = u → r.tmdb_id = id →
          r.show_status = s ∧ r.last_status_check = some env.now)
        ∧ (∃ r ∈ st2.shows, r.user_id = u ∧ r.tmdb_id = id)
        ∧ (st2.notifs ≠ st.notifs →
          ∃ row, first_match st u id = some row
            ∧ row.show_status ≠ s ∧ (s = "Ended" ∨ s = "Canceled")))
      ∧ (update_show_status env
            ((update_show_status env st u id title).2) u id title).2.notifs
          = ((update_show_status env st u id title).2).notifs := by
  intro env st u id title
  constructor
  · intro s st2 h
    obtain ⟨info, row, rest, hf, hs, hsf, huf, hrows, hshows, hnot⟩ :=
      update_success env st u id title s st2 h
    have hrowmem : row ∈ st.shows ∧ (row.user_id == u && row.tmdb_id == id) = true := by
      have hmem : row ∈ List.filter
          (fun r => r.user_id == u && r.tmdb_id == id) st.shows := by
        have hm : row ∈ rows_for st u id := by
          rw [hrows]
          exact List.mem_cons_self _ _
        simpa [rows_for] using hm
      exact ⟨(List.mem_filter.mp hmem).1, (List.mem_filter.mp hmem).2⟩
    refine ⟨?_, ?_, ?_⟩
    · intro r hr hu hid
      rw [hshows] at hr
      obtain ⟨r0, hr0, hfr⟩ := List.mem_map.mp hr
      by_cases hp : (r0.user_id == u && r0.tmdb_id == id) = true
      · rw [← hfr]
        unfold upd_row
        rw [if_pos hp]
        exact ⟨rfl, rfl⟩
      · exfalso
        apply hp
        rw [← hfr] at hu hid
        unfold upd_row at hu hid
        rw [if_neg hp] at hu hid
        simp [hu, hid]
    · refine ⟨upd_row u id s env.now row, ?_, ?_⟩
      · rw [hshows]
        exact List.mem_map_of_mem _ hrowmem.1
      · unfold upd_row
        rw [if_pos hrowmem.2]
        have := hrowmem.2
        rw [Bool.and_eq_true, beq_iff_eq, beq_iff_eq] at this
        exact ⟨this.1, this.2⟩
    · intro hne
      rcases hnot with heq | hright
      · exact absurd heq hne
      · refine ⟨row, ?_, hright.1, hright.2⟩
        unfold first_match
        rw [hrows]
        rfl
  · cases hcall : update_show_status env st u id title with
    | mk r1 stA =>
      cases r1 with
      | none =>
        have hA : stA = st := update_none_state env st u id title stA hcall
        show (update_show_status env stA u id title).2.notifs = stA.notifs
        rw [hA, hcall, hA]
      | some s =>
        obtain ⟨info, row, rest, hf, hs, hsf, huf, hrows, hshows, _⟩ :=
          update_success env st u id title s stA hcall
        show (update_show_status env stA u id title).2.notifs = stA.notifs
        have hrowsA : rows_for stA u id
            = upd_row u id s env.now row :: rest.map (upd_row u id s env.now) := by
          rw [rows_for_of_shows stA
              { st with shows := st.shows.map (upd_row u id s env.now) } u id
              (by rw [hshows]),
            rows_for_map_upd, hrows]
          rfl
        have hp : (row.user_id == u && row.tmdb_id == id) = true := by
          have hmem : row ∈ List.filter
              (fun r => r.user_id == u && r.tmdb_id == id) st.shows := by
            have hm : row ∈ rows_for st u id := by
              rw [hrows]
              exact List.mem_cons_self _ _
            simpa [rows_for] using hm
          exact (List.mem_filter.mp hmem).2
        have hrstat : (upd_row u id s env.now row).show_status = info.status := by
          unfold upd_row
          rw [if_pos hp]
          exact hs.symm
        exact update_unchanged_no_notify env stA u id title info _ _ hf hrowsA hrstat

/-- Environment for the concrete reconciliation scenarios: show 1 now
reports status Ended upstream. -/
def infoEnded : StatusInfo :=
  { tmdb_id := 1, name := "S", status := "Ended", showType := "Scripted",
    last_air_date := some "2025-05-01", number_of_seasons := 5,
    number_of_episodes := 50, in_production := false,
    next_episode_to_air := none,
    last_episode_to_air := some ⟨some "2025-05-01", some 5, some 10⟩ }

/-- Environment whose fetch reports `infoEnded` for show 1 and fails
upstream for every other id; no persistence failures. -/
def envEnded : Env :=
  { fetch := fun id => if id == 1 then some infoEnded else none,
    select_fails := fun _ _ => false, update_fails := fun _ _ => false,
    batch_select_fails := false, now := "2025-06-01T00:00:00" }

/-- A watchlist whose stored raw status for show 1 is "Returning Series". -/
def stRS : St :=
  ⟨[⟨"u", 1, "S", "Returning Series", none⟩], []⟩

/-- C3 witness: the Returning-Series-to-Ended scenario writes the new
status and timestamp, and the second identical call emits nothing new. -/
theorem C3_witness :
    (∀ r ∈ ((update_show_status envEnded stRS "u" 1 "S").2).shows,
        r.user_id = "u" → r.tmdb_id = 1 →
        r.show_status = "Ended" ∧ r.last_status_check = some "2025-06-01T00:00:00")
    ∧ (update_show_status envEnded
          ((update_show_status envEnded stRS "u" 1 "S").2) "u" 1 "S").2.notifs
        = ((update_show_status envEnded stRS "u" 1 "S").2).notifs := by
  refine ⟨?_, (C3_reconciler_write_and_idempotence envEnded stRS "u" 1 "S").2⟩
  exact ((C3_reconciler_write_and_idempotence envEnded stRS "u" 1 "S").1 "Ended"
    ((update_show_status envEnded stRS "u" 1 "S").2) (by decide)).1

/-! ## Claim C4 -/

/-- A watchlist whose stored raw status for show 1 is "Planned". -/
def stPlanned : St :=
  ⟨[⟨"u", 1, "S", "Planned", none⟩], []⟩

/-- C4 counterexample: the transition "Planned" to "Ended" - which is
neither of the two transitions the claim allows to notify - nevertheless
produces one series_finale notification, because the code notifies on
any change whose new raw status is Ended or Canceled. -/
theorem C4_counterexample :
    stPlanned.shows.map (fun r => r.show_status) = ["Planned"]
    ∧ (envEnded.fetch 1).map (fun i => i.status) = some "Ended"
    ∧ ((update_show_status envEnded stPlanned "u" 1 "S").2).notifs.map
        (fun n => n.notification_type) = ["series_finale"] := by
  decide

/-- C4 amended: on a successful reconciliation call, exactly one
series_finale notification is appended when the raw status changed and
the new raw status is "Ended", exactly one series_cancelled notification
when it changed and the new raw status is "Canceled" (whatever the old
status was - "Returning Series" included), and nothing is appended in
every other case (equal statuses, or changes in other fields only). -/
theorem C4_transition_rule :
    ∀ (env : Env) (st : St) (u : String) (id : Nat) (title : String)
      (info : StatusInfo) (row : Row) (rest : List Row),
      env.fetch id = some info → env.select_fails u id = false →
      env.update_fails u id = false → rows_for st u id = row :: rest →
      ((row.show_status ≠ info.status ∧ info.status = "Ended") →
        ((update_show_status env st u id title).2).notifs.map
            (fun n => n.notification_type)
          = st.notifs.map (fun n => n.notification_type) ++ ["series_finale"])
      ∧ ((row.show_status ≠ info.status ∧ info.status = "Canceled") →
        ((update_show_status env st u id title).2).notifs.map
            (fun n => n.notification_type)
          = st.notifs.map (fun n => n.notification_type) ++ ["series_cancelled"])
      ∧ (¬(row.show_status ≠ info.status
            ∧ (info.status = "Ended" ∨ info.status = "Canceled")) →
        ((update_show_status env st u id title).2).notifs = st.notifs) := by
  intro env st u id title info row rest hf hsf huf hrows
  have hred : update_show_status env st u id title
      = (some info.status,
        if ((row.show_status != info.status)
            && (info.status == "Ended" || info.status == "Canceled")) = true then
          notify_status_change
            { st with shows := st.shows.map (upd_row u id info.status env.now) }
            u id title row.show_status info.status info
        else { st with shows := st.shows.map (upd_row u id info.status env.now) }) := by
    unfold update_show_status
    rw [hf]
    dsimp only
    rw [if_neg (by simp [hsf]), hrows]
    dsimp only
    rw [if_neg (by simp [huf])]
  refine ⟨?_, ?_, ?_⟩
  · rintro ⟨hch, hE⟩
    rw [hred]
    dsimp only
    rw [if_pos (by
      simp only [Bool.and_eq_true, bne_iff_ne, Bool.or_eq_true, beq_iff_eq]
      exact ⟨hch, Or.inl hE⟩), hE]
    exact notify_notifs_ended _ u id title row.show_status info
  · rintro ⟨hch, hC⟩
    rw [hred]
    dsimp only
    rw [if_pos (by
      simp only [Bool.and_eq_true, bne_iff_ne, Bool.or_eq_true, beq_iff_eq]
      exact ⟨hch, Or.inr hC⟩), hC]
    exact notify_notifs_cancelled _ u id title row.show_status info
  · intro hnone
    rw [hred]
    dsimp only
    have hcond : ¬(((row.show_status != info.status)
        && (info.status == "Ended" || info.status == "Canceled")) = true) := by
      intro hc
      rw [Bool.and_eq_true, bne_iff_ne, Bool.or_eq_true, beq_iff_eq,
        beq_iff_eq] at hc
      exact hnone hc
    rw [if_neg hcond]

/-- C4 witness: the "Returning Series" to "Ended" transition emits
exactly one series_finale call. -/
theorem C4_witness :
    ((update_show_status envEnded stRS "u" 1 "S").2).notifs.map
        (fun n => n.notification_type) = ["series_finale"] := by
  have h := (C4_transition_rule envEnded stRS "u" 1 "S" infoEnded
      ⟨"u", 1, "S", "Returning Series", none⟩ []
      (by decide) (by decide) (by decide) (by decide)).1
    ⟨by decide, by decide⟩
  simpa using h

/-! ## Claim C10 -/

/-- C10: when the upstream fetch succeeds but the `(user_id, tmdb_id)`
pair has no row in the shows table, `update_show_status` returns the
failure signal `none` with the state untouched (no write, no
notification), and the batch loop counts exactly this case under
`errors`. -/
theorem C10_missing_row :
    ∀ (env : Env) (st : St) (u : String) (id : Nat) (title : String)
      (info : StatusInfo),
      env.fetch id = some info → rows_for st u id = [] →
      update_show_status env st u id title = (none, st)
      ∧ (∀ (stats : Stats) (r : Row), r.tmdb_id = id →
        check_show_step env u (stats, st) r
          = ({ stats with errors := stats.errors + 1 }, st)) := by
  intro env st u id title info hf hrows
  have hupd : ∀ t2 : String, update_show_status env st u id t2 = (none, st) := by
    intro t2
    unfold update_show_status
    rw [hf]
    dsimp only
    by_cases hsf : env.select_fails u id = true
    · rw [if_pos hsf]
    · rw [if_neg hsf, hrows]
  refine ⟨hupd title, ?_⟩
  intro stats r hr
  unfold check_show_step
  dsimp only
  rw [hr, hupd r.title]

/-- Fetch oracle and states for the missing-row scenario: show 5 fetches
fine upstream but has no row in the watchlist. -/
def infoC10 : StatusInfo :=
  ⟨5, "B", "Returning Series", "Scripted", none, 1, 5, true, none, none⟩

/-- Environment for the missing-row scenario. -/
def envC10 : Env :=
  ⟨fun id => if id == 5 then some infoC10 else none,
    fun _ _ => false, fun _ _ => false, false, "T1"⟩

/-- Empty watchlist state for the missing-row scenario. -/
def stEmpty : St := ⟨[], []⟩

/-- A batch-snapshot row pointing at show 5. -/
def rowC10 : Row := ⟨"u", 5, "B", "Unknown", none⟩

/-- C10 witness: concrete missing-row call returns `none`, leaves the
state untouched, and the batch step counts it as an error. -/
theorem C10_witness :
    envC10.fetch 5 = some infoC10
    ∧ rows_for stEmpty "u" 5 = []
    ∧ update_show_status envC10 stEmpty "u" 5 "B" = (none, stEmpty)
    ∧ check_show_step envC10 "u" (⟨3, 1, 1, 0⟩, stEmpty) rowC10
        = (⟨3, 1, 1, 1⟩, stEmpty) := by
  obtain ⟨h1, _⟩ := C10_missing_row envC10 stEmpty "u" 5 "B" infoC10
    (by decide) (by decide)
  exact ⟨by decide, by decide, h1, by decide⟩

/-! ## Claim C1 -/

lemma check_step_counts (env : Env) (u : String) (acc : Stats × St) (r : Row) :
    (check_show_step env u acc r).1.total = acc.1.total
    ∧ (check_show_step env u acc r).1.updated
        + (check_show_step env u acc r).1.unchanged
        + (check_show_step env u acc r).1.errors
      = acc.1.updated + acc.1.unchanged + acc.1.errors + 1 := by
  unfold check_show_step
  dsimp only
  split
  · exact ⟨rfl, by dsimp only; omega⟩
  · split
    · exact ⟨rfl, by dsimp only; omega⟩
    · exact ⟨rfl, by dsimp only; omega⟩

lemma fold_counts (env : Env) (u : String) :
    ∀ (l : List Row) (acc : Stats × St),
      (l.foldl (check_show_step env u) acc).1.total = acc.1.total
      ∧ (l.foldl (check_show_step env u) acc).1.updated
          + (l.foldl (check_show_step env u) acc).1.unchanged
          + (l.foldl (check_show_step env u) acc).1.errors
        = acc.1.updated + acc.1.unchanged + acc.1.errors + l.length := by
  intro l
  induction l with
  | nil =>
    intro acc
    exact ⟨rfl, by simp⟩
  | cons r t ih =>
    intro acc
    rw [List.foldl_cons]
    obtain ⟨h1, h2⟩ := ih (check_show_step env u acc r)
    obtain ⟨g1, g2⟩ := check_step_counts env u acc r
    refine ⟨h1.trans g1, ?_⟩
    rw [List.length_cons]
    omega

/-- A one-row watchlist for the batch-read-failure counterexample. -/
def stOne : St :=
  ⟨[⟨"u", 1, "A", "Returning Series", none⟩], []⟩

/-- An environment whose initial batch select raises. -/
def envBatchFail : Env :=
  ⟨fun _ => none, fun _ _ => false, fun _ _ => false, true, "T0"⟩

/-- C1 counterexample: when the initial batch select itself fails, the
source's `except` branch returns `{"total": 0, "updated": 0,
"unchanged": 0, "errors": 1}`, and `total = updated + unchanged + errors`
does not hold for that dictionary. -/
theorem C1_counterexample :
    (check_all_shows_status envBatchFail stOne "u").1.total = 0
    ∧ (check_all_shows_status envBatchFail stOne "u").1.errors = 1
    ∧ ¬((check_all_shows_status envBatchFail stOne "u").1.total
        = (check_all_shows_status envBatchFail stOne "u").1.updated
          + (check_all_shows_status envBatchFail stOne "u").1.unchanged
          + (check_all_shows_status envBatchFail stOne "u").1.errors) := by
  decide

/-- C1 amended: whenever the initial watchlist read succeeds, the batch
operation satisfies `total = updated + unchanged + errors`, and `total`
equals the number of the user's entries - so every entry is counted
exactly once and a failure on one entry never prevents the remaining
entries from being processed; no exception propagates (the operation
always returns a counts dictionary).  Only the batch-read-failure
fallback dictionary `{total: 0, errors: 1}` breaks the identity. -/
theorem C1_batch_aggregation :
    ∀ (env : Env) (st : St) (u : String),
      env.batch_select_fails = false →
      (check_all_shows_status env st u).1.total
          = (check_all_shows_status env st u).1.updated
            + (check_all_shows_status env st u).1.unchanged
            + (check_all_shows_status env st u).1.errors
      ∧ (check_all_shows_status env st u).1.total
          = (st.shows.filter (fun r => r.user_id == u)).length := by
  intro env st u hb
  unfold check_all_shows_status
  rw [if_neg (by simp [hb])]
  dsimp only
  by_cases hrows : (st.shows.filter (fun r => r.user_id == u)).isEmpty = true
  · rw [if_pos hrows]
    refine ⟨rfl, ?_⟩
    rw [List.isEmpty_iff] at hrows
    rw [hrows]
    rfl
  · rw [if_neg hrows]
    obtain ⟨h1, h2⟩ := fold_counts env u (st.shows.filter (fun r => r.user_id == u))
      (⟨(st.shows.filter (fun r => r.user_id == u)).length, 0, 0, 0⟩, st)
    dsimp only at h1 h2
    exact ⟨by omega, h1⟩

/-- Upstream oracle for the C1 witness: show 1 fails to fetch, show 2
fetches with a changed status. -/
def envC1 : Env :=
  ⟨fun id => if id == 2 then some infoEnded else none,
    fun _ _ => false, fun _ _ => false, false, "T2"⟩

/-- Two-entry watchlist for the C1 witness. -/
def stTwo : St :=
  ⟨[⟨"u", 1, "A", "Returning Series", none⟩,
    ⟨"u", 2, "B", "Returning Series", none⟩], []⟩

/-- C1 witness: with the first entry failing upstream and the second
updating, the batch returns `{total: 2, updated: 1, unchanged: 0,
errors: 1}` - the first failure did not stop the second entry. -/
theorem C1_witness :
    envC1.batch_select_fails = false
    ∧ (check_all_shows_status envC1 stTwo "u").1 = ⟨2, 1, 0, 1⟩
    ∧ (check_all_shows_status envC1 stTwo "u").1.total
        = (check_all_shows_status envC1 stTwo "u").1.updated
          + (check_all_shows_status envC1 stTwo "u").1.unchanged
          + (check_all_shows_status envC1 stTwo "u").1.errors :=
  ⟨by decide, by decide, (C1_batch_aggregation envC1 stTwo "u" (by decide)).1⟩
